import Mathlib

/-!
Shallow embedding of the Luma data-layer and custom-events engine
(`scripts/datalayer.js`, `scripts/custom-events.js`, and the cart block),
with theorems checking the natural-language specification against the code.

JavaScript values that flow through the data layer are JSON-like: `null`,
booleans, numbers, strings, arrays, and plain objects.  Objects are modelled
as insertion-ordered association lists with unique keys (JS object keys are
unique; `Object.keys` returns them in insertion order).  Numbers are modelled
as rationals.

The file is organised as definitions first, theorems second.
-/

namespace Luma

/-- JSON-like JavaScript value (the values stored in the data layer). -/
inductive JVal where
  | null
  | bool (b : Bool)
  | num (q : ℚ)
  | str (s : String)
  | arr (elems : List JVal)
  | obj (fields : List (String × JVal))

/-- JavaScript truthiness of a `JVal` (`!x` in the source is `¬ truthy x`).
`undefined`, `null`, `false`, `0`, `""` are falsy; objects and arrays are
always truthy. -/
def truthy : JVal → Bool
  | .null => false
  | .bool b => b
  | .num q => q ≠ 0
  | .str s => s ≠ ""
  | .arr _ => true
  | .obj _ => true

/-- `isObject` from `datalayer.js`: `item && typeof item === "object" &&
!Array.isArray(item)` — true exactly for plain (non-array, non-null)
objects. -/
def isObject : JVal → Bool
  | .obj _ => true
  | _ => false

/-- `typeof x === "object"` in JS: true for `null`, arrays and plain
objects, false for booleans, numbers and strings. -/
def jsTypeofObject : JVal → Bool
  | .null => true
  | .arr _ => true
  | .obj _ => true
  | _ => false

/-- Lookup `fields[key]` on a JS object: the value bound to the first
occurrence of the key, `none` when the key is absent (JS `undefined`). -/
def getField {β : Type} : List (String × β) → String → Option β
  | [], _ => none
  | (k', v') :: rest, k => if k' = k then some v' else getField rest k

/-- Property assignment `output[key] = v` on a JS object: an existing key
keeps its position and gets the new value; a fresh key is appended. -/
def setField {β : Type} : List (String × β) → String → β → List (String × β)
  | [], k, v => [(k, v)]
  | (k', v') :: rest, k, v =>
    if k' = k then (k, v) :: rest else (k', v') :: setField rest k v

/-- Property deletion `delete obj[key]`: JS object keys are unique, so
removing every binding of the key while preserving the order of the rest
is exactly what `delete` does. -/
def deleteField {β : Type} (fs : List (String × β)) (k : String) : List (String × β) :=
  fs.filter (fun kv => kv.1 ≠ k)

/-- Own enumerable properties produced by a spread `{...x}`:
the fields of an object, index-keyed elements of an array, index-keyed
characters of a string, and nothing for primitives. -/
def spreadObj : JVal → List (String × JVal)
  | .obj fs => fs
  | .arr es => (es.enum).map fun p => (toString p.1, p.2)
  | .str s => (s.toList.enum).map fun p => (toString p.1, .str (String.mk [p.2]))
  | _ => []

mutual

/-- `deepMerge(target, source)` from `datalayer.js` lines 37–61, transcribed
clause by clause: a falsy target is replaced by (a copy of) the source;
otherwise `output = {...target}` and, when both sides are plain objects,
each source key is assigned into `output` — recursing when both values are
plain objects, copying the source value otherwise. -/
def deepMerge (target source : JVal) : JVal :=
  if truthy target = false then
    if isObject source then .obj (spreadObj source) else source
  else
    match target, source with
    | .obj tf, .obj sf => .obj (deepMergeFields tf tf sf)
    | _, _ => .obj (spreadObj target)
termination_by (sizeOf source, 0)

/-- Right-hand side assigned by one iteration of the `forEach` loop in
`deepMerge`: if the source value is a plain object, copy it when
`target[key]` is falsy or not a plain object, else recurse; a primitive
source value is assigned outright. -/
def mergeValue (tf : List (String × JVal)) (k : String) (sv : JVal) : JVal :=
  if isObject sv then
    match getField tf k with
    | some tv =>
      if truthy tv = false ∨ isObject tv = false then sv else deepMerge tv sv
    | none => sv
  else sv
termination_by (sizeOf sv, 1)

/-- The `Object.keys(source).forEach` loop of `deepMerge`: `tf` is the
original target's fields (`target[key]` lookups), `out` the accumulated
`output`, and the third argument the remaining source fields in key order. -/
def deepMergeFields (tf out : List (String × JVal)) :
    List (String × JVal) → List (String × JVal)
  | [] => out
  | (k, sv) :: rest => deepMergeFields tf (setField out k (mergeValue tf k sv)) rest
termination_by sf => (sizeOf sf, 2)

end

/-- Property access `v[k]` on a value known to be a plain object. -/
def getKey (v : JVal) (k : String) : Option JVal :=
  match v with
  | .obj fs => getField fs k
  | _ => none

/-- Sequential property assignments of a spread into an object literal. -/
def assignAll (o fs : List (String × JVal)) : List (String × JVal) :=
  fs.foldl (fun acc kv => setField acc kv.1 kv.2) o

/-- `{..._dataLayer, ...updates}` — the `merge = false` (shallow) mode of
`updateDataLayer`: build a fresh object by spreading the target and then
the updates, later assignments winning. -/
def shallowMerge (target updates : JVal) : JVal :=
  .obj (assignAll (assignAll [] (spreadObj target)) (spreadObj updates))

/-- One queued entry of `window._dataLayerQueue`: `{updates, merge}`. -/
def QueueEntry : Type := JVal × Bool

/-- Application of one update to the tree, in the mode carried by the
entry: `deepMerge(_dataLayer, updates)` when `merge` is true, the shallow
spread otherwise.  This is exactly the step used both by a ready
`updateDataLayer` call and by each iteration of `processDataLayerQueue`. -/
def applyUpdate (dl : JVal) (entry : JVal × Bool) : JVal :=
  if entry.2 then deepMerge dl entry.1 else shallowMerge dl entry.1

/-! Cart subsystem: `executeAddToCart` (`datalayer.js` lines 141–212) and the
cart block's `removeFromCart` / `updateQuantity` (lines 39–136 of the cart
block).  A line item is the object stored under `cart.products[id]`. -/

/-- One cart line item, as built by `executeAddToCart`. -/
structure LineItem where
  id : String
  sku : String
  name : String
  image : String
  thumbnail : String
  category : String
  description : String
  quantity : ℤ
  price : ℚ
  subTotal : ℚ
  total : ℚ

/-- Product data passed to `addToCart` / `executeAddToCart`. -/
structure Product where
  id : String
  name : String
  image : String
  thumbnail : String
  category : String
  description : String
  price : ℚ
  quantity : Option ℤ

/-- JS `productData.quantity || 1`: `undefined` and `0` fall back to `1`. -/
def qtyOrOne : Option ℤ → ℤ
  | some n => if n = 0 then 1 else n
  | none => 1

/-- The line item inserted for a product not yet in the cart. -/
def newLineItem (p : Product) : LineItem :=
  { id := p.id, sku := p.id, name := p.name, image := p.image,
    thumbnail := p.thumbnail, category := p.category,
    description := p.description, quantity := qtyOrOne p.quantity,
    price := p.price, subTotal := p.price * qtyOrOne p.quantity,
    total := p.price * qtyOrOne p.quantity }

/-- The cart object: `{productCount, products, subTotal, total}`. -/
structure Cart where
  productCount : ℤ
  products : List (String × LineItem)
  subTotal : ℚ
  total : ℚ

/-- `Object.values(products).reduce((sum, p) => sum + p.quantity, 0)`. -/
def sumQuantity (ps : List (String × LineItem)) : ℤ :=
  (ps.map Prod.snd).foldl (fun s p => s + p.quantity) 0

/-- `Object.values(products).reduce((sum, p) => sum + p.subTotal, 0)`. -/
def sumSubTotal (ps : List (String × LineItem)) : ℚ :=
  (ps.map Prod.snd).foldl (fun s p => s + p.subTotal) 0

/-- The value of `_dataLayer.cart`: either the initial empty object `{}`
(before any cart write) or a full cart state. -/
inductive CartV where
  | emptyObj
  | state (c : Cart)

/-- The fresh cart `{productCount: 0, products: {}, subTotal: 0, total: 0}`. -/
def initialCart : Cart :=
  { productCount := 0, products := [], subTotal := 0, total := 0 }

/-- `executeAddToCart` from `datalayer.js` lines 141–212, as a function of
the current `_dataLayer.cart` value: start from the fresh cart when
`Object.keys(_dataLayer.cart).length === 0`, increment an existing line
item's quantity (recomputing its subtotal) or insert a new one, then
recompute the cart aggregates by folding over all line items. -/
def executeAddToCart (p : Product) (cart : CartV) : CartV :=
  let currentCart :=
    match cart with
    | .emptyObj => initialCart
    | .state c => c
  let products1 :=
    match getField currentCart.products p.id with
    | some li =>
      let q := li.quantity + qtyOrOne p.quantity
      setField currentCart.products p.id
        { li with quantity := q, subTotal := q * li.price, total := q * li.price }
    | none => setField currentCart.products p.id (newLineItem p)
  .state { productCount := sumQuantity products1, products := products1,
           subTotal := sumSubTotal products1, total := sumSubTotal products1 }

/-- `removeFromCart` from the cart block lines 39–78.  On the initial `{}`
cart, `currentCart.products` is `undefined` and indexing it throws a
`TypeError` before any write.  When the product is present it is deleted and
the aggregates recomputed; the new cart is written with `merge = false`
(a shallow replace of the whole `cart` key).  When absent, nothing is
written. -/
def removeFromCart (productId : String) (cart : CartV) : Except String CartV :=
  match cart with
  | .emptyObj => .error "TypeError"
  | .state c =>
    match getField c.products productId with
    | some _ =>
      let products1 := deleteField c.products productId
      .ok (.state { productCount := sumQuantity products1, products := products1,
                    subTotal := sumSubTotal products1, total := sumSubTotal products1 })
    | none => .ok (.state c)

/-- `updateQuantity` from the cart block lines 86–136: a quantity below 1
delegates to `removeFromCart`; otherwise an existing line item's quantity
and subtotal are replaced and the aggregates recomputed (written with
`merge = false`); a missing line item leaves the cart untouched. -/
def updateQuantity (productId : String) (newQuantity : ℤ) (cart : CartV) :
    Except String CartV :=
  if newQuantity < 1 then removeFromCart productId cart
  else
    match cart with
    | .emptyObj => .error "TypeError"
    | .state c =>
      match getField c.products productId with
      | some li =>
        let li1 := { li with quantity := newQuantity,
                             subTotal := newQuantity * li.price,
                             total := newQuantity * li.price }
        let products1 := setField c.products productId li1
        .ok (.state { productCount := sumQuantity products1, products := products1,
                      subTotal := sumSubTotal products1, total := sumSubTotal products1 })
      | none => .ok (.state c)

/-- A single cart operation of the public cart surface. -/
inductive CartOp where
  | add (p : Product)
  | remove (productId : String)
  | setQuantity (productId : String) (qty : ℤ)

/-- Effect of one cart operation on `_dataLayer.cart`.  A thrown
`TypeError` aborts the handler before any write, leaving the state
unchanged (all mutations happen on a deep copy until `updateDataLayer`
is called). -/
def applyCartOp (cart : CartV) : CartOp → CartV
  | .add p => executeAddToCart p cart
  | .remove productId =>
    match removeFromCart productId cart with
    | .ok c => c
    | .error _ => cart
  | .setQuantity productId qty =>
    match updateQuantity productId qty cart with
    | .ok c => c
    | .error _ => cart

/-- The cart aggregate invariant of the spec: `productCount = Σ quantity`,
`subTotal = Σ` per-item `subTotal`, and `total = subTotal`, over the
surviving line items. -/
def cartAggregatesOk : CartV → Prop
  | .emptyObj => True
  | .state c =>
    c.productCount = sumQuantity c.products ∧
    c.subTotal = sumSubTotal c.products ∧ c.total = c.subTotal

/-- Products of a cart value (`{}` has none). -/
def cartProducts : CartV → List (String × LineItem)
  | .emptyObj => []
  | .state c => c.products

/-- Concrete line item used by closed witness theorems. -/
def sampleItem : LineItem :=
  { id := "p1", sku := "p1", name := "Shirt", image := "", thumbnail := "",
    category := "", description := "", quantity := 3, price := 10,
    subTotal := 30, total := 30 }

/-- Concrete one-item cart used by closed witness theorems. -/
def sampleCart : Cart :=
  { productCount := 3, products := [("p1", sampleItem)], subTotal := 30,
    total := 30 }

/-- Concrete product (no explicit quantity) used by closed witness theorems. -/
def sampleProduct : Product :=
  { id := "p1", name := "Shirt", image := "", thumbnail := "", category := "",
    description := "", price := 10, quantity := none }

/-- Second concrete product used by closed witness theorems. -/
def sampleProduct2 : Product :=
  { id := "p2", name := "Hat", image := "", thumbnail := "", category := "",
    description := "", price := 5, quantity := some 2 }

/-- Concrete product with a missing (falsy) id. -/
def productNoId : Product :=
  { id := "", name := "Ghost", image := "", thumbnail := "", category := "",
    description := "", price := 1, quantity := none }

/-! State container, update queue, persistence (`datalayer.js`).  The
observable state is `_dataLayer`, the two queues, the four relevant
`localStorage` keys (`luma_dataLayer`, its timestamp, `luma_checkout_data`,
its timestamp), and a count of dispatched `dataLayerUpdated` events of type
`"updated"`. -/

/-- Global state of the data-layer module.  `dl` is `_dataLayer` (`none`
before `buildCustomDataLayer` runs), `ready` is `window._dataLayerReady`,
`queue` is `window._dataLayerQueue`, `cartQueue` is `window._cartQueue`,
the `stored*` fields are the `luma_dataLayer` snapshot and timestamp in
`localStorage`, the `checkout*` fields the `luma_checkout_data` snapshot
and timestamp, and `updatedEvents` counts dispatched `dataLayerUpdated`
events of type `"updated"`. -/
structure DLState where
  dl : Option JVal
  ready : Bool
  queue : List (JVal × Bool)
  cartQueue : List Product
  storedSnap : Option JVal
  storedTs : Option ℤ
  checkoutSnap : Option JVal
  checkoutTs : Option ℤ
  updatedEvents : ℕ

/-- `window.updateDataLayer(updates, merge)` from `datalayer.js` lines
424–461: a falsy payload or one whose `typeof` is not `"object"` is logged
and dropped; before readiness the entry is queued; otherwise the merge is
applied, the result persisted with the current timestamp, and one
`"updated"` event dispatched. -/
def updateDataLayer (s : DLState) (updates : JVal) (merge : Bool) (now : ℤ) :
    DLState :=
  if truthy updates = false ∨ jsTypeofObject updates = false then s
  else
    match s.dl with
    | none => { s with queue := s.queue ++ [(updates, merge)] }
    | some dl =>
      if s.ready = false then { s with queue := s.queue ++ [(updates, merge)] }
      else
        let dl1 := applyUpdate dl (updates, merge)
        { s with dl := some dl1, storedSnap := some dl1, storedTs := some now,
                 updatedEvents := s.updatedEvents + 1 }

/-- `processDataLayerQueue` from `datalayer.js` lines 91–119: when the
queue is nonempty, each queued update is applied to `_dataLayer` in arrival
order with its own merge mode, the final state is persisted once, the queue
is cleared, and a single `"updated"` event is dispatched for the whole
drain.  It is called only after `buildCustomDataLayer` installs the tree,
so `dl` is present. -/
def processDataLayerQueue (s : DLState) (now : ℤ) : DLState :=
  if s.queue.isEmpty then s
  else
    match s.dl with
    | none => s
    | some dl =>
      let dl1 := s.queue.foldl applyUpdate dl
      { s with dl := some dl1, storedSnap := some dl1, storedTs := some now,
               queue := [], updatedEvents := s.updatedEvents + 1 }

/-- `window.clearDataLayer` from `datalayer.js` lines 495–500: empties both
queues and removes the persisted `luma_dataLayer` snapshot and timestamp.
It touches neither the in-memory `_dataLayer` nor the checkout keys. -/
def clearDataLayer (s : DLState) : DLState :=
  { s with queue := [], cartQueue := [],
           storedSnap := none, storedTs := none }

/-! Cart-side global behaviour: `window.addToCart` and `processCartQueue`,
tracked on a cart-focused projection of the global state. -/

/-- Cart-focused global state: readiness, the `_dataLayer.cart` value,
`window._cartQueue`, and the count of dispatched `"updated"` events. -/
structure CartSys where
  ready : Bool
  cart : CartV
  cartQueue : List Product
  updatedEvents : ℕ

/-- One `executeAddToCart` call at the system level: it rewrites the cart
and dispatches one `"updated"` event (`datalayer.js` lines 141–212). -/
def execAddDispatch (s : CartSys) (p : Product) : CartSys :=
  { s with cart := executeAddToCart p s.cart,
           updatedEvents := s.updatedEvents + 1 }

/-- `window.addToCart(productData)` from `datalayer.js` lines 574–588:
a product with a falsy id (modelled as `""`, covering a missing id) is
logged and dropped; before readiness the product is pushed on the cart
queue; otherwise `executeAddToCart` runs immediately. -/
def addToCart (s : CartSys) (p : Product) : CartSys :=
  if p.id = "" then s
  else if s.ready = false then { s with cartQueue := s.cartQueue ++ [p] }
  else execAddDispatch s p

/-- `processCartQueue` from `datalayer.js` lines 124–135: each queued cart
operation is executed in arrival order via `executeAddToCart` — so each
entry dispatches its own `"updated"` event — and the queue is cleared. -/
def processCartQueue (s : CartSys) : CartSys :=
  if s.cartQueue.isEmpty then s
  else
    let s1 := s.cartQueue.foldl execAddDispatch s
    { s1 with cartQueue := [] }

/-! Startup hydration (`buildCustomDataLayer`, `datalayer.js` lines
220–315): restore a persisted tree within its TTL, else build the default
tree. -/

/-- `STORAGE_TTL`: 30 days in milliseconds. -/
def STORAGE_TTL : ℤ := 30 * 24 * 60 * 60 * 1000

/-- The initial data layer literal from `datalayer.js` lines 248–301 (the
`locale` local variable computed above it is unused; the literal hardcodes
`"en-US"`). -/
def defaultDataLayer : JVal :=
  .obj
    [("projectName", .str "luma3"),
     ("project", .obj
       [("id", .str "luma3"), ("title", .str "Luma Website v3"),
        ("template", .str "web-modular/empty-website-v2"),
        ("locale", .str "en-US"), ("currency", .str "USD"),
        ("projectName", .str "luma3")]),
     ("page", .obj [("name", .str "home"), ("title", .str "HOME")]),
     ("cart", .obj []),
     ("product", .obj []),
     ("partnerData", .obj
       [("PartnerID", .str "Partner456"), ("BrandLoyalist", .num 88),
        ("Seasonality", .str "Fall")]),
     ("personalEmail", .obj [("address", .str "")]),
     ("mobilePhone", .obj [("number", .str "")]),
     ("homeAddress", .obj
       [("street1", .str ""), ("city", .str ""), ("postalCode", .str "")]),
     ("person", .obj
       [("gender", .str ""), ("birthDayAndMonth", .str ""),
        ("loyaltyConsent", .bool false),
        ("name", .obj [("firstName", .str ""), ("lastName", .str "")])]),
     ("individualCharacteristics", .obj
       [("retail", .obj
         [("shoeSize", .str ""), ("shirtSize", .str ""),
          ("favoriteColor", .str "")])]),
     ("consents", .obj
       [("marketing", .obj
         [("call", .obj [("val", .bool true)]),
          ("email", .obj [("val", .bool true)]),
          ("sms", .obj [("val", .bool true)])])])]

/-- The load step of `buildCustomDataLayer` (lines 220–302): the persisted
record is restored only when both the snapshot and its timestamp exist and
`now - timestamp ≤ STORAGE_TTL`; otherwise (missing or expired) it is
treated as absent and the default tree is freshly constructed. -/
def loadStoredDataLayer (saved : Option JVal) (ts : Option ℤ) (now : ℤ) : JVal :=
  match saved, ts with
  | some snap, some t =>
    if now - t ≤ STORAGE_TTL then snap else defaultDataLayer
  | _, _ => defaultDataLayer

/-- Lines 305–309 of `buildCustomDataLayer`: a falsy `page` is replaced by
`{}`, then `page.title` and `page.name` are set from the document title
(property writes on a truthy non-object `page` are silently dropped in
sloppy mode, as in the source). -/
def setPageInfo (dl : JVal) (docTitle : String) : JVal :=
  match dl with
  | .obj fs =>
    let page :=
      match getField fs "page" with
      | some p => if truthy p then p else .obj []
      | none => .obj []
    match page with
    | .obj pfs =>
      .obj (setField fs "page"
        (.obj (setField (setField pfs "title" (.str docTitle)) "name"
          (.str docTitle.toLower))))
    | other => .obj (setField fs "page" other)
  | _ => dl

/-- The tree installed by `buildCustomDataLayer`: the loaded (or default)
tree with the current page information stamped on top. -/
def buildCustomDataLayerTree (saved : Option JVal) (ts : Option ℤ) (now : ℤ)
    (docTitle : String) : JVal :=
  setPageInfo (loadStoredDataLayer saved ts now) docTitle

/-- Concrete queued update entry used by closed witness theorems. -/
def sampleEntry : JVal × Bool :=
  (.obj [("page", .obj [("name", .str "cart")])], true)

/-- Concrete ready data-layer state (one queued generic update, hydrated
tree) used by closed witness theorems. -/
def sampleDLState : DLState :=
  { dl := some defaultDataLayer, ready := true, queue := [sampleEntry],
    cartQueue := [], storedSnap := none, storedTs := none,
    checkoutSnap := some (.obj [("firstName", .str "Ada")]),
    checkoutTs := some 7, updatedEvents := 0 }

/-- Concrete cart system state with two queued cart operations. -/
def sampleCartSys : CartSys :=
  { ready := true, cart := .emptyObj,
    cartQueue := [sampleProduct, sampleProduct2], updatedEvents := 0 }

/-! Event trigger engine (`scripts/custom-events.js`).  Page patterns are
translated by the source into the anchored regex `^pattern$` in which `*`
became `.*`, while `?` and `/` were escaped to literals; an unescaped `.`
in the pattern therefore remains the regex any-character class.  The
matcher below implements exactly that translated language (patterns are
free of other regex metacharacters, as in the shipped configurations). -/

/-- JS `String.prototype.trim()`: strip leading and trailing whitespace
(implemented on the character list so that it evaluates by `rfl`). -/
def jsTrim (s : String) : String :=
  String.mk
    (((s.toList.dropWhile Char.isWhitespace).reverse.dropWhile
      Char.isWhitespace).reverse)

/-- JS `String.prototype.toLowerCase()` (character-wise, as used on the
ASCII trigger names). -/
def jsToLower (s : String) : String :=
  String.mk (s.toList.map Char.toLower)

/-- JS `String.prototype.includes(c)` for a single character. -/
def containsChar (s : String) (c : Char) : Bool :=
  s.toList.contains c

/-- Accumulator loop for `split(",")`. -/
def splitOnCommaAux : List Char → List Char → List String
  | [], acc => [String.mk acc.reverse]
  | c :: rest, acc =>
    if c = ',' then String.mk acc.reverse :: splitOnCommaAux rest []
    else splitOnCommaAux rest (c :: acc)

/-- JS `excludes.split(",")`. -/
def splitOnComma (s : String) : List String :=
  splitOnCommaAux s.toList []

/-- Anchored matching of a translated page pattern against a path:
`*` matches any substring, `.` any single character, every other
character itself. -/
def matchGlob : List Char → List Char → Bool
  | [], [] => true
  | [], _ :: _ => false
  | '*' :: ps, s =>
    matchGlob ps s ||
      (match s with
       | [] => false
       | _ :: s1 => matchGlob ('*' :: ps) s1)
  | _ :: _, [] => false
  | p :: ps, c :: s => (p == '.' || p == c) && matchGlob ps s
termination_by p s => (s.length, p.length)

/-- `new RegExp("^" + translated + "$").test(str)` for a wildcard pattern. -/
def wildcardTest (pattern str : String) : Bool :=
  matchGlob pattern.toList str.toList

/-- `matchesPagePattern` from `custom-events.js` lines 165–189: a falsy or
`"*"` pattern matches every page; otherwise exact match against the path
or path+query; otherwise, when the pattern holds a `*` or `?`, the
wildcard translation is tested against both. -/
def matchesPagePattern (pagePattern : Option String)
    (currentPath fullPath : String) : Bool :=
  let p := pagePattern.getD ""
  if p = "" ∨ p = "*" then true
  else if p = currentPath ∨ p = fullPath then true
  else if containsChar p '*' || containsChar p '?' then
    wildcardTest p currentPath || wildcardTest p fullPath
  else false

/-- One entry of the exclusion list: exact match against path or
path+query, else the wildcard translation when the entry holds `*` or
`?` (`custom-events.js` lines 203–219). -/
def excludeMatches (excludePath currentPath fullPath : String) : Bool :=
  if excludePath = currentPath ∨ excludePath = fullPath then true
  else if containsChar excludePath '*' || containsChar excludePath '?' then
    wildcardTest excludePath currentPath || wildcardTest excludePath fullPath
  else false

/-- `isPageExcluded` from `custom-events.js` lines 197–221: a falsy
`excludes` excludes nothing; otherwise the comma-separated entries are
trimmed and any matching entry excludes the page. -/
def isPageExcluded (excludes : Option String)
    (currentPath fullPath : String) : Bool :=
  match excludes with
  | none => false
  | some e =>
    if e = "" then false
    else ((splitOnComma e).map (fun ex => jsTrim ex)).any
      (fun ex => excludeMatches ex currentPath fullPath)

/-- JS truthiness of an optional string (`undefined` and `""` are falsy). -/
def strTruthy : Option String → Bool
  | none => false
  | some s => s ≠ ""

/-- The "smart default" trigger selection of `triggerCustomEvents`
(`custom-events.js` lines 404–427): an explicitly given non-blank trigger
wins; else a non-blank element selector defaults the trigger to `"click"`;
else the trigger defaults to `"pageload"` (both when a page pattern is
defined and as the final fallback).  An absent trigger is modelled as `""`
(both are falsy in the source's test). -/
def resolveTrigger (explicitTrigger element : String) (page : Option String) :
    String :=
  if explicitTrigger ≠ "" ∧ jsTrim explicitTrigger ≠ "" then explicitTrigger
  else if element ≠ "" ∧ jsTrim element ≠ "" then "click"
  else if strTruthy page then "pageload"
  else "pageload"

/-- One entry of the `custom-events.json` `data` array, with the source's
defaults (`element = ""`, `preventDefaultAction = true`,
`beaconDelay = 100`) already applied by destructuring. -/
structure EventConfig where
  page : Option String
  excludes : Option String
  event : Option String
  trigger : Option String
  element : String
  preventDefaultAction : Bool
  beaconDelay : ℤ

/-- What `triggerCustomEvents` decides to do with one rule on the current
page (`custom-events.js` lines 429–571). -/
inductive Decision where
  | skipNoEventName
  | skipExcluded
  | skipNoPageMatch
  | dispatchNow (eventName : String)
  | skipClickNoSelector
  | installClickListener (eventName selector : String)
  | installLoadListener (eventName : String)
  | warnUnknownTrigger (trigger : String)

/-- The per-rule dispatch decision of `triggerCustomEvents`, in source
order: resolve the trigger, skip on a missing event name, skip when the
page is excluded, skip when the page pattern does not match, then switch
on the lowercased trigger — `"pageload"`/`"domcontentloaded"` dispatch
immediately, `"click"` installs the delegated listener (requiring a
selector), `"load"` arms the full-load signal (dispatching at once when it
has already passed), anything else warns. -/
def ruleDecision (cfg : EventConfig) (currentPath fullPath : String) : Decision :=
  let trig := resolveTrigger (cfg.trigger.getD "") cfg.element cfg.page
  if strTruthy cfg.event = false then .skipNoEventName
  else
    let ev := cfg.event.getD ""
    if isPageExcluded cfg.excludes currentPath fullPath then .skipExcluded
    else if matchesPagePattern cfg.page currentPath fullPath = false then
      .skipNoPageMatch
    else
      match jsToLower trig with
      | "pageload" => .dispatchNow ev
      | "domcontentloaded" => .dispatchNow ev
      | "click" =>
        if cfg.element = "" then .skipClickNoSelector
        else .installClickListener ev cfg.element
      | "load" => .installLoadListener ev
      | _ => .warnUnknownTrigger trig

/-- An interceptable default browser behavior captured by
`getElementDefaultAction` (`custom-events.js` lines 228–268). -/
inductive DefaultAction where
  | navigation (href target : String)
  | formSubmit (action method target : String)

/-- The clicked element, reduced to the features `getElementDefaultAction`
inspects: an anchor (a blank `href` models a link without one), a form, a
submit control with its enclosing form's action/method/target when inside
one, or anything else. -/
inductive DomElement where
  | anchor (href target : String)
  | formEl (action method target : String)
  | submitControl (enclosingForm : Option (String × String × String))
  | plain

/-- `getElementDefaultAction`: link navigation for an anchor with a truthy
`href` (target defaulting to `"_self"`), form submission for a form or for
a submit control inside a form (method defaulting to `"GET"`), nothing
otherwise. -/
def getElementDefaultAction : DomElement → Option DefaultAction
  | .anchor href tgt =>
    if href ≠ "" then
      some (.navigation href (if tgt = "" then "_self" else tgt))
    else none
  | .formEl action method tgt =>
    some (.formSubmit action (if method = "" then "GET" else method)
      (if tgt = "" then "_self" else tgt))
  | .submitControl (some f) =>
    some (.formSubmit f.1 (if f.2.1 = "" then "GET" else f.2.1)
      (if f.2.2 = "" then "_self" else f.2.2))
  | .submitControl none => none
  | .plain => none

/-- Observable steps of the delegated click handler, in execution order.
`scheduleDefaultAction d act` stands for `setTimeout(() =>
executeDefaultAction(act), d)`: the replay runs at least `d` milliseconds
after this step, hence strictly after every step preceding it in the
trace (execution is single-threaded). -/
inductive HandlerStep where
  | suppressDefault
  | dispatchNamedEvent (eventName : String)
  | scheduleDefaultAction (delayMs : ℤ) (act : DefaultAction)

/-- The delegated click handler of `triggerCustomEvents` (`custom-events.js`
lines 486–539), as the trace of steps it performs on a click:
nothing when `closest(element)` finds no match; with a matched element
having a default action and `preventDefaultAction` true, suppress the
default, dispatch the rule's named event, then schedule the replay of the
captured action after `beaconDelay`; otherwise just dispatch the event. -/
def delegatedClickHandler (eventName : String) (preventDefaultAction : Bool)
    (beaconDelay : ℤ) (matchedElement : Option DomElement) : List HandlerStep :=
  match matchedElement with
  | none => []
  | some el =>
    match getElementDefaultAction el, preventDefaultAction with
    | some act, true =>
      [.suppressDefault, .dispatchNamedEvent eventName,
       .scheduleDefaultAction beaconDelay act]
    | _, _ => [.dispatchNamedEvent eventName]

/-- Concrete rule with the spec's `"domready"` trigger kind. -/
def domreadyConfig : EventConfig :=
  { page := some "*", excludes := none, event := some "heroViewed",
    trigger := some "domready", element := "", preventDefaultAction := true,
    beaconDelay := 100 }

/-- Concrete rule with no trigger kind and a selector, for inference. -/
def clickInferConfig : EventConfig :=
  { page := some "*", excludes := none, event := some "addClicked",
    trigger := none, element := ".addBtn", preventDefaultAction := true,
    beaconDelay := 100 }

/-! THEOREMS -/

theorem isObject_truthy {v : JVal} (h : isObject v = true) : truthy v = true := by
  cases v <;> simp_all [isObject, truthy]

theorem getField_setField_self {β : Type} (fs : List (String × β)) (k : String) (v : β) :
    getField (setField fs k v) k = some v := by
  induction fs with
  | nil => simp [setField, getField]
  | cons hd tl ih =>
    by_cases h : hd.1 = k <;> simp [setField, getField, h, ih]

theorem getField_setField_ne {β : Type} (fs : List (String × β)) {k k' : String} (v : β)
    (hne : k' ≠ k) : getField (setField fs k v) k' = getField fs k' := by
  induction fs with
  | nil => simp [setField, getField, Ne.symm hne]
  | cons hd tl ih =>
    by_cases h : hd.1 = k
    · simp [setField, getField, h, hne, Ne.symm hne]
    · by_cases h' : hd.1 = k' <;> simp [setField, getField, h, h', hne, ih]

theorem getField_deleteField_self {β : Type} (fs : List (String × β)) (k : String) :
    getField (deleteField fs k) k = none := by
  induction fs with
  | nil => rfl
  | cons hd tl ih =>
    by_cases h : hd.1 = k <;> simp [deleteField, getField, h] at ih ⊢ <;>
      simpa [deleteField, List.filter] using ih

theorem getField_ne_none_of_mem {β : Type} (sf : List (String × β)) (k : String)
    (h : k ∈ sf.map Prod.fst) : getField sf k ≠ none := by
  induction sf with
  | nil => simp at h
  | cons hd tl ih =>
    by_cases he : hd.1 = k
    · simp [getField, he]
    · simp only [List.map_cons, List.mem_cons] at h
      rcases h with h | h
      · exact absurd h.symm he
      · simp [getField, he, ih h]

theorem deepMergeFields_getField_of_not_mem (tf : List (String × JVal)) (k : String) :
    ∀ (sf out : List (String × JVal)), k ∉ sf.map Prod.fst →
      getField (deepMergeFields tf out sf) k = getField out k
  | [], out, _ => by rw [deepMergeFields]
  | (k0, sv) :: rest, out, h => by
    simp only [List.map_cons, List.mem_cons, not_or] at h
    rw [deepMergeFields, deepMergeFields_getField_of_not_mem tf k rest _ h.2,
      getField_setField_ne _ _ h.1]

theorem deepMergeFields_getField_of_mem (tf : List (String × JVal)) (k : String) :
    ∀ (sf out : List (String × JVal)) (sv : JVal),
      (sf.map Prod.fst).Nodup → getField sf k = some sv →
      getField (deepMergeFields tf out sf) k = some (mergeValue tf k sv)
  | [], _, _, _, hget => by simp [getField] at hget
  | (k0, sv0) :: rest, out, sv, hnd, hget => by
    simp only [List.map_cons, List.nodup_cons] at hnd
    by_cases h : k0 = k
    · subst h
      rw [getField, if_pos rfl] at hget
      obtain rfl := Option.some.inj hget
      rw [deepMergeFields, deepMergeFields_getField_of_not_mem tf k0 rest _ hnd.1,
        getField_setField_self]
    · rw [getField, if_neg h] at hget
      rw [deepMergeFields]
      exact deepMergeFields_getField_of_mem tf k rest _ sv hnd.2 hget

theorem deepMerge_obj_obj (tf sf : List (String × JVal)) :
    deepMerge (.obj tf) (.obj sf) = .obj (deepMergeFields tf tf sf) := by
  rw [deepMerge]
  simp [truthy]

/-- C1. Deep-merge of payload `P = obj sf` into tree `T = obj tf` (the
`merge = true` mode of `write`): every key of `T` absent from `P` is
unchanged; every leaf of `P` (a value that is not a plain mapping, nulls and
empty values included) overwrites the corresponding value of `T`; when both
sides hold plain mappings at a key they are merged recursively; and when the
target's value at such a key is absent or not a plain mapping, the payload's
nested mapping is installed. -/
theorem deepMerge_write_spec (tf sf : List (String × JVal)) (k : String)
    (hnd : (sf.map Prod.fst).Nodup) :
    (getField sf k = none →
      getKey (deepMerge (.obj tf) (.obj sf)) k = getField tf k) ∧
    (∀ sv, getField sf k = some sv → isObject sv = false →
      getKey (deepMerge (.obj tf) (.obj sf)) k = some sv) ∧
    (∀ sv tv, getField sf k = some sv → isObject sv = true →
      getField tf k = some tv → isObject tv = true →
      getKey (deepMerge (.obj tf) (.obj sf)) k = some (deepMerge tv sv)) ∧
    (∀ sv, getField sf k = some sv → isObject sv = true →
      (getField tf k = none ∨
        ∀ tv, getField tf k = some tv → isObject tv = false) →
      getKey (deepMerge (.obj tf) (.obj sf)) k = some sv) := by
  rw [deepMerge_obj_obj]
  simp only [getKey]
  refine ⟨fun hnone => ?_, fun sv hsv hleaf => ?_, fun sv tv hsv hso htv hto => ?_,
    fun sv hsv hso htv => ?_⟩
  · have hk : k ∉ sf.map Prod.fst := fun hmem =>
      getField_ne_none_of_mem sf k hmem hnone
    exact deepMergeFields_getField_of_not_mem tf k sf tf hk
  · rw [deepMergeFields_getField_of_mem tf k sf tf sv hnd hsv, mergeValue, if_neg]
    simp [hleaf]
  · rw [deepMergeFields_getField_of_mem tf k sf tf sv hnd hsv, mergeValue,
      if_pos hso, htv]
    simp [hto, isObject_truthy hto]
  · rw [deepMergeFields_getField_of_mem tf k sf tf sv hnd hsv, mergeValue, if_pos hso]
    rcases htv with hnone | hnotobj
    · rw [hnone]
    · cases hcase : getField tf k with
      | none => rfl
      | some tv => simp [hnotobj tv hcase]

/-- Witness for `deepMerge_write_spec` at a concrete tree and payload:
the nested mappings at key `"c"` merge recursively. -/
theorem deepMerge_write_spec_witness :
    getKey (deepMerge (.obj [("a", .num 1), ("b", .num 2), ("c", .obj [("x", .num 3)])])
        (.obj [("b", .null), ("c", .obj [("y", .str "s")])])) "c" =
      some (deepMerge (.obj [("x", .num 3)]) (.obj [("y", .str "s")])) :=
  (deepMerge_write_spec [("a", .num 1), ("b", .num 2), ("c", .obj [("x", .num 3)])]
      [("b", .null), ("c", .obj [("y", .str "s")])] "c" (by simp)).2.2.1
    (.obj [("y", .str "s")]) (.obj [("x", .num 3)]) rfl rfl rfl rfl

theorem cartAggregatesOk_applyCartOp (cart : CartV) (op : CartOp)
    (h : cartAggregatesOk cart) : cartAggregatesOk (applyCartOp cart op) := by
  cases op with
  | add p =>
    simp [applyCartOp, executeAddToCart, cartAggregatesOk]
  | remove productId =>
    cases cart with
    | emptyObj => simpa [applyCartOp, removeFromCart] using h
    | state c =>
      cases hg : getField c.products productId with
      | some li => simp [applyCartOp, removeFromCart, hg, cartAggregatesOk]
      | none => simpa [applyCartOp, removeFromCart, hg] using h
  | setQuantity productId qty =>
    by_cases hq : qty < 1
    · cases cart with
      | emptyObj =>
        simpa [applyCartOp, updateQuantity, removeFromCart, hq] using h
      | state c =>
        cases hg : getField c.products productId with
        | some li =>
          simp [applyCartOp, updateQuantity, removeFromCart, hq, hg, cartAggregatesOk]
        | none =>
          simpa [applyCartOp, updateQuantity, removeFromCart, hq, hg] using h
    · cases cart with
      | emptyObj => simpa [applyCartOp, updateQuantity, hq] using h
      | state c =>
        cases hg : getField c.products productId with
        | some li =>
          simp [applyCartOp, updateQuantity, hq, hg, cartAggregatesOk]
        | none => simpa [applyCartOp, updateQuantity, hq, hg] using h

/-- C2. For every sequence of cart operations (`add`, `remove`,
`setQuantity`) starting from the initial empty cart, after every operation
the cart state satisfies `productCount = Σ quantity`, `subTotal = Σ`
per-item `subTotal` (price × quantity), and `total = subTotal` over the
surviving line items.  Every prefix of a sequence is itself a sequence, so
quantifying over all sequences covers "after every operation". -/
theorem cart_invariant_all_sequences (ops : List CartOp) :
    cartAggregatesOk (ops.foldl applyCartOp CartV.emptyObj) := by
  have hstep : ∀ (s : CartV), cartAggregatesOk s →
      ∀ (l : List CartOp), cartAggregatesOk (l.foldl applyCartOp s) := by
    intro s hs l
    induction l generalizing s with
    | nil => exact hs
    | cons op rest ih =>
      exact ih (applyCartOp s op) (cartAggregatesOk_applyCartOp s op hs)
  exact hstep CartV.emptyObj trivial ops

/-- C4. From any cart state containing a line item with id `X`,
`remove(X)` followed by `add` of a product with the same id yields a line
item whose quantity is exactly the quantity requested by the second add
(`productData.quantity || 1`) — the removed quantity is never resurrected. -/
theorem remove_then_add_no_resurrection (c : Cart) (X : String) (li : LineItem)
    (p : Product) (hmem : getField c.products X = some li) (hid : p.id = X) :
    getField
      (cartProducts (applyCartOp (applyCartOp (.state c) (.remove X)) (.add p))) X =
      some (newLineItem p) ∧ (newLineItem p).quantity = qtyOrOne p.quantity := by
  subst hid
  refine ⟨?_, rfl⟩
  simp only [applyCartOp, removeFromCart, hmem]
  simp only [executeAddToCart, getField_deleteField_self, cartProducts]
  exact getField_setField_self _ _ _

/-- Witness for `remove_then_add_no_resurrection`: a one-item cart, remove
then re-add the same id with no explicit quantity (so quantity 1). -/
theorem remove_then_add_no_resurrection_witness :
    getField
      (cartProducts (applyCartOp (applyCartOp (.state sampleCart) (.remove "p1"))
        (.add sampleProduct))) "p1" = some (newLineItem sampleProduct) ∧
      (newLineItem sampleProduct).quantity = qtyOrOne sampleProduct.quantity :=
  remove_then_add_no_resurrection sampleCart "p1" sampleItem sampleProduct rfl rfl

theorem foldl_execAddDispatch_spec (ps : List Product) :
    ∀ (s : CartSys),
      (ps.foldl execAddDispatch s).cart =
          ps.foldl (fun c q => executeAddToCart q c) s.cart ∧
      (ps.foldl execAddDispatch s).updatedEvents = s.updatedEvents + ps.length ∧
      (ps.foldl execAddDispatch s).cartQueue = s.cartQueue ∧
      (ps.foldl execAddDispatch s).ready = s.ready := by
  induction ps with
  | nil => intro s; exact ⟨rfl, by simp, rfl, rfl⟩
  | cons p rest ih =>
    intro s
    have h := ih (execAddDispatch s p)
    simp only [List.foldl_cons]
    refine ⟨h.1, ?_, h.2.2.1, h.2.2.2⟩
    rw [h.2.1]
    simp only [execAddDispatch, List.length_cons]
    omega

/-- C3 (amended).  On startup completion each queue is drained strictly in
arrival order using the normal merge algorithm.  The generic update queue
dispatches exactly one consolidated `dataLayerUpdated` notification for the
whole drain; the cart queue instead dispatches one notification per queued
entry (`processCartQueue` calls `executeAddToCart`, which dispatches, once
per entry).  A single `cart.add` issued before readiness yields, once
ready, the same final cart state as the same add issued after readiness,
and its one-entry drain dispatches exactly one notification. -/
theorem startup_queue_drain_semantics (s : DLState) (dl : JVal) (now : ℤ)
    (hdl : s.dl = some dl) (hq : s.queue ≠ [])
    (cs : CartSys) (hcq : cs.cartQueue ≠ [])
    (cart0 : CartV) (p : Product) (hpid : p.id ≠ "") :
    ((processDataLayerQueue s now).dl = some (s.queue.foldl applyUpdate dl) ∧
     (processDataLayerQueue s now).queue = [] ∧
     (processDataLayerQueue s now).updatedEvents = s.updatedEvents + 1) ∧
    ((processCartQueue cs).cart =
        cs.cartQueue.foldl (fun c q => executeAddToCart q c) cs.cart ∧
     (processCartQueue cs).cartQueue = [] ∧
     (processCartQueue cs).updatedEvents =
        cs.updatedEvents + cs.cartQueue.length) ∧
    ((processCartQueue
        { addToCart ⟨false, cart0, [], 0⟩ p with ready := true }).cart =
        (addToCart ⟨true, cart0, [], 0⟩ p).cart ∧
     (processCartQueue
        { addToCart ⟨false, cart0, [], 0⟩ p with ready := true }).updatedEvents = 1 ∧
     (addToCart ⟨true, cart0, [], 0⟩ p).updatedEvents = 1) := by
  have hqe : s.queue.isEmpty = false := by
    cases hqq : s.queue with
    | nil => exact absurd hqq hq
    | cons a l => rfl
  have hce : cs.cartQueue.isEmpty = false := by
    cases hcc : cs.cartQueue with
    | nil => exact absurd hcc hcq
    | cons a l => rfl
  refine ⟨?_, ?_, ?_⟩
  · refine ⟨?_, ?_, ?_⟩ <;> simp [processDataLayerQueue, hqe, hdl]
  · have h := foldl_execAddDispatch_spec cs.cartQueue cs
    refine ⟨?_, ?_, ?_⟩ <;> simp [processCartQueue, hce, h.1, h.2.1]
  · refine ⟨?_, ?_, ?_⟩ <;>
      simp [addToCart, hpid, processCartQueue, execAddDispatch]

/-- Witness for `startup_queue_drain_semantics` at concrete states: one
queued generic update, a two-entry cart queue, and a single pre-ready add
of `sampleProduct`. -/
theorem startup_queue_drain_semantics_witness :
    ((processDataLayerQueue sampleDLState 5).dl =
        some (sampleDLState.queue.foldl applyUpdate defaultDataLayer) ∧
     (processDataLayerQueue sampleDLState 5).queue = [] ∧
     (processDataLayerQueue sampleDLState 5).updatedEvents =
        sampleDLState.updatedEvents + 1) ∧
    ((processCartQueue sampleCartSys).cart =
        sampleCartSys.cartQueue.foldl (fun c q => executeAddToCart q c)
          sampleCartSys.cart ∧
     (processCartQueue sampleCartSys).cartQueue = [] ∧
     (processCartQueue sampleCartSys).updatedEvents =
        sampleCartSys.updatedEvents + sampleCartSys.cartQueue.length) ∧
    ((processCartQueue
        { addToCart ⟨false, CartV.emptyObj, [], 0⟩ sampleProduct with
            ready := true }).cart =
        (addToCart ⟨true, CartV.emptyObj, [], 0⟩ sampleProduct).cart ∧
     (processCartQueue
        { addToCart ⟨false, CartV.emptyObj, [], 0⟩ sampleProduct with
            ready := true }).updatedEvents = 1 ∧
     (addToCart ⟨true, CartV.emptyObj, [], 0⟩ sampleProduct).updatedEvents = 1) :=
  startup_queue_drain_semantics sampleDLState defaultDataLayer 5 rfl
    (by simp [sampleDLState]) sampleCartSys (by simp [sampleCartSys])
    CartV.emptyObj sampleProduct (by decide)

/-- C3 counterexample: draining a cart queue holding two pending
`cart.add` operations dispatches two `dataLayerUpdated` notifications —
one per queued entry — not one consolidated notification per drain. -/
theorem cart_queue_drain_two_notifications :
    (processCartQueue sampleCartSys).updatedEvents = 2 := rfl

/-- C5 (amended).  `clearDataLayer` empties both in-memory queues and
removes the persisted state snapshot and its write timestamp; the
separately persisted checkout (form-entry) snapshot and timestamp are
untouched — and so is the in-memory state tree, which survives for the
rest of the page's lifetime. -/
theorem clearDataLayer_spec (s : DLState) :
    (clearDataLayer s).queue = [] ∧ (clearDataLayer s).cartQueue = [] ∧
    (clearDataLayer s).storedSnap = none ∧ (clearDataLayer s).storedTs = none ∧
    (clearDataLayer s).checkoutSnap = s.checkoutSnap ∧
    (clearDataLayer s).checkoutTs = s.checkoutTs ∧
    (clearDataLayer s).dl = s.dl ∧
    (clearDataLayer s).updatedEvents = s.updatedEvents :=
  ⟨rfl, rfl, rfl, rfl, rfl, rfl, rfl, rfl⟩

/-- C5 counterexample: after `clearDataLayer` on a state whose in-memory
tree is the (nonempty) hydrated default tree, the in-memory tree is still
present and unchanged — it is not wiped. -/
theorem clearDataLayer_keeps_in_memory_tree :
    (clearDataLayer sampleDLState).dl = some defaultDataLayer := rfl

/-- C6.  Loading the persisted state record: a record whose age exceeds the
TTL (`now - writeTimestamp > STORAGE_TTL`) is treated as a miss and yields
the freshly constructed default tree; a record within its TTL restores a
tree equal to the stored snapshot (only the timestamp itself is consumed by
the check). -/
theorem load_ttl_spec (snap : JVal) (t now : ℤ) :
    (now - t > STORAGE_TTL →
      loadStoredDataLayer (some snap) (some t) now = defaultDataLayer) ∧
    (now - t ≤ STORAGE_TTL →
      loadStoredDataLayer (some snap) (some t) now = snap) := by
  constructor
  · intro h
    simp [loadStoredDataLayer, not_le.mpr h]
  · intro h
    simp [loadStoredDataLayer, h]

/-- Witness for `load_ttl_spec`: an expired record (one millisecond past
the 30-day TTL) falls back to the default tree; a fresh record restores
the stored snapshot. -/
theorem load_ttl_spec_witness :
    loadStoredDataLayer (some (.obj [("x", .num 1)])) (some 0) (STORAGE_TTL + 1) =
        defaultDataLayer ∧
    loadStoredDataLayer (some (.obj [("x", .num 1)])) (some 5) (STORAGE_TTL + 5) =
        .obj [("x", .num 1)] :=
  ⟨(load_ttl_spec (.obj [("x", .num 1)]) 0 (STORAGE_TTL + 1)).1 (by omega),
   (load_ttl_spec (.obj [("x", .num 1)]) 5 (STORAGE_TTL + 5)).2 (by omega)⟩

/-- C7 (amended).  A payload that is falsy or whose JS `typeof` is not
`"object"` (null, booleans, numbers, strings) is logged and dropped by
`updateDataLayer` with the whole state unchanged — nothing queued, no
mutation, no persistence, no notification.  A product with a falsy id is
likewise dropped by `addToCart`.  Arrays, however, pass the `typeof`
check even though they are not plain mappings. -/
theorem invalid_inputs_dropped :
    (∀ (s : DLState) (updates : JVal) (merge : Bool) (now : ℤ),
       truthy updates = false ∨ jsTypeofObject updates = false →
       updateDataLayer s updates merge now = s) ∧
    (∀ (cs : CartSys) (p : Product), p.id = "" → addToCart cs p = cs) := by
  constructor
  · intro s updates merge now h
    rw [updateDataLayer, if_pos h]
  · intro cs p h
    rw [addToCart, if_pos h]

/-- Witness for `invalid_inputs_dropped`: a numeric payload and a product
with an empty id are both dropped with the state unchanged. -/
theorem invalid_inputs_dropped_witness :
    updateDataLayer sampleDLState (.num 3) true 0 = sampleDLState ∧
    addToCart sampleCartSys productNoId = sampleCartSys :=
  ⟨invalid_inputs_dropped.1 sampleDLState (.num 3) true 0 (Or.inr rfl),
   invalid_inputs_dropped.2 sampleCartSys productNoId rfl⟩

/-- C7 counterexample: an array payload is not a mapping, yet
`updateDataLayer` accepts it (`typeof [] === "object"`), and a
`dataLayerUpdated` notification is dispatched for it. -/
theorem array_payload_dispatches_notification :
    (updateDataLayer sampleDLState (.arr []) true 0).updatedEvents = 1 := rfl

/-- C8.  For a click rule with `preventDefault` true whose matched element
has an interceptable default behavior, the handler suppresses the default,
dispatches the rule's named notification, and only then schedules the
replay of the captured default action — the dispatch step strictly
precedes the scheduling step in the handler's single-threaded execution
trace, and the replay fires `resumeDelayMs` (`beaconDelay`) after being
scheduled, so the notification is observably dispatched strictly before
the deferred default action executes, never after. -/
theorem click_dispatch_before_deferred_action (eventName : String)
    (delay : ℤ) (el : DomElement) (act : DefaultAction)
    (hact : getElementDefaultAction el = some act) :
    delegatedClickHandler eventName true delay (some el) =
      [.suppressDefault, .dispatchNamedEvent eventName,
       .scheduleDefaultAction delay act] ∧
    (delegatedClickHandler eventName true delay (some el)).get? 1 =
      some (.dispatchNamedEvent eventName) ∧
    (delegatedClickHandler eventName true delay (some el)).get? 2 =
      some (.scheduleDefaultAction delay act) ∧ (1 : ℕ) < 2 := by
  have h : delegatedClickHandler eventName true delay (some el) =
      [.suppressDefault, .dispatchNamedEvent eventName,
       .scheduleDefaultAction delay act] := by
    simp [delegatedClickHandler, hact]
  exact ⟨h, by rw [h]; rfl, by rw [h]; rfl, by omega⟩

/-- Witness for `click_dispatch_before_deferred_action`: a `.checkout-btn`
style rule with `resumeDelayMs = 100` on a navigation link. -/
theorem click_dispatch_before_deferred_action_witness :
    delegatedClickHandler "checkoutClicked" true 100
        (some (.anchor "/en/checkout" "")) =
      [.suppressDefault, .dispatchNamedEvent "checkoutClicked",
       .scheduleDefaultAction 100 (.navigation "/en/checkout" "_self")] ∧
    (delegatedClickHandler "checkoutClicked" true 100
        (some (.anchor "/en/checkout" ""))).get? 1 =
      some (.dispatchNamedEvent "checkoutClicked") ∧
    (delegatedClickHandler "checkoutClicked" true 100
        (some (.anchor "/en/checkout" ""))).get? 2 =
      some (.scheduleDefaultAction 100 (.navigation "/en/checkout" "_self")) ∧
    (1 : ℕ) < 2 :=
  click_dispatch_before_deferred_action "checkoutClicked" 100
    (.anchor "/en/checkout" "") (.navigation "/en/checkout" "_self") rfl

/-- C9 (amended).  For every trigger rule whose explicit trigger kind
lowercases to `"pageload"` or `"domcontentloaded"` (the code's trigger
kind for DOM-ready; a literal `"domready"` kind is not recognized), with
an event name present, the engine dispatches the rule's named notification
immediately when the current page matches the rule's page pattern and is
not excluded. -/
theorem pageload_rules_dispatch_immediately (cfg : EventConfig)
    (currentPath fullPath t ev : String)
    (htrig : cfg.trigger = some t) (htr : jsTrim t ≠ "")
    (hlow : jsToLower t = "pageload" ∨ jsToLower t = "domcontentloaded")
    (hev : cfg.event = some ev) (hevne : ev ≠ "")
    (hexc : isPageExcluded cfg.excludes currentPath fullPath = false)
    (hmatch : matchesPagePattern cfg.page currentPath fullPath = true) :
    ruleDecision cfg currentPath fullPath = .dispatchNow ev := by
  have htne : t ≠ "" := fun h => htr (by rw [h]; rfl)
  rcases hlow with hl | hl <;>
    simp [ruleDecision, resolveTrigger, htrig, htne, htr, strTruthy, hev,
      hevne, hexc, hmatch, hl]

/-- Witness for `pageload_rules_dispatch_immediately`: an explicit
`"pageload"` rule on the matching page `/en/home`. -/
theorem pageload_rules_dispatch_immediately_witness :
    ruleDecision
      { page := some "/en/home", excludes := none, event := some "homeSeen",
        trigger := some "pageload", element := "", preventDefaultAction := true,
        beaconDelay := 100 } "/en/home" "/en/home" = .dispatchNow "homeSeen" :=
  pageload_rules_dispatch_immediately _ "/en/home" "/en/home" "pageload"
    "homeSeen" rfl (by decide) (Or.inl (by decide)) rfl (by decide) rfl rfl

/-- C9 counterexample: a rule with the spec's trigger kind `"domready"`,
an event name, page pattern `"*"` and no exclusions is not dispatched —
the trigger switch recognizes only `"pageload"`/`"domcontentloaded"`, so
the rule falls through to the unknown-trigger warning. -/
theorem domready_rule_not_dispatched :
    ruleDecision domreadyConfig "/en/home" "/en/home" =
      .warnUnknownTrigger "domready" := rfl

/-- C10.  When a rule's trigger kind is absent (modelled as `""`, falsy
like `undefined`) or blank, the engine infers one instead of skipping the
rule: `"click"` when a non-blank element selector is present, otherwise
`"pageload"`; an explicitly given non-blank trigger kind always takes
precedence.  With the inferred `"click"`, a matching, non-excluded rule
carrying an event name installs the delegated click listener. -/
theorem trigger_inference (explicitTrigger element : String) (page : Option String) :
    (jsTrim explicitTrigger = "" →
      resolveTrigger explicitTrigger element page =
        (if element ≠ "" ∧ jsTrim element ≠ "" then "click" else "pageload")) ∧
    (explicitTrigger ≠ "" → jsTrim explicitTrigger ≠ "" →
      resolveTrigger explicitTrigger element page = explicitTrigger) ∧
    (∀ (cfg : EventConfig) (currentPath fullPath ev : String),
      cfg.trigger = none → cfg.element ≠ "" → jsTrim cfg.element ≠ "" →
      cfg.event = some ev → ev ≠ "" →
      isPageExcluded cfg.excludes currentPath fullPath = false →
      matchesPagePattern cfg.page currentPath fullPath = true →
      ruleDecision cfg currentPath fullPath =
        .installClickListener ev cfg.element) := by
  refine ⟨fun h => ?_, fun h1 h2 => ?_, ?_⟩
  · rw [resolveTrigger, if_neg (fun hc => hc.2 h)]
    by_cases he : element ≠ "" ∧ jsTrim element ≠ ""
    · rw [if_pos he, if_pos he]
    · rw [if_neg he, if_neg he, ite_self]
  · rw [resolveTrigger, if_pos ⟨h1, h2⟩]
  · intro cfg currentPath fullPath ev htrig hel heltr hev hevne hexc hmatch
    simp [ruleDecision, resolveTrigger, htrig, hel, heltr, strTruthy, hev,
      hevne, hexc, hmatch]
    try rfl

/-- Witness for `trigger_inference`: a blank trigger with selector
`.addBtn` infers `"click"`; an explicit `"load"` survives; the
`clickInferConfig` rule installs the delegated listener. -/
theorem trigger_inference_witness :
    resolveTrigger "" ".addBtn" (some "*") =
      (if ".addBtn" ≠ "" ∧ jsTrim ".addBtn" ≠ "" then "click"
       else "pageload") ∧
    resolveTrigger "load" ".addBtn" (some "*") = "load" ∧
    ruleDecision clickInferConfig "/en/product" "/en/product" =
      .installClickListener "addClicked" ".addBtn" :=
  ⟨(trigger_inference "" ".addBtn" (some "*")).1 rfl,
   (trigger_inference "load" ".addBtn" (some "*")).2.1 (by decide) (by decide),
   (trigger_inference "" "" none).2.2 clickInferConfig "/en/product"
     "/en/product" "addClicked" rfl (by decide) (by decide) rfl (by decide)
     rfl rfl⟩

end Luma
